import Mathlib

/-!
Verification of the HEDGE survival-scoring pipeline.

The definitions below are a shallow embedding of the Python sources
(`app/services/scoring/{factors,weights,scenarios,engine}.py`,
`app/tasks/{scoring,alerts}.py`, `app/api/v1/portfolio.py`).
Python `Decimal` values are modelled as `ℚ`, nullable columns as `Option`,
and Python truthiness (`x or d`) as `qOr`.  `round(x, 2)` on `Decimal`
uses round-half-to-even, modelled by `round2`.
-/

unseal Rat.add Rat.mul Rat.inv Rat.sub

namespace Hedge

/-- Mirror of the `CompanyData` dataclass in `factors.py`. -/
structure CompanyData where
  ticker : String
  sector : Option String := none
  industry : Option String := none
  total_assets : Option Int := none
  tangible_assets : Option Int := none
  intangible_assets : Option Int := none
  total_revenue : Option Int := none
  foreign_revenue : Option Int := none
  foreign_revenue_pct : Option ℚ := none
  commodity_revenue : Option Int := none
  commodity_revenue_pct : Option ℚ := none
  precious_metals_revenue : Option Int := none
  precious_metals_revenue_pct : Option ℚ := none
  total_debt : Option Int := none
  fixed_rate_debt_pct : Option ℚ := none
  avg_debt_maturity_years : Option ℚ := none
  gross_margin : Option ℚ := none
  gross_margin_5yr_std : Option ℚ := none
  proven_reserves_oz : Option Int := none
deriving DecidableEq

/-- Python truthy `x or d` on an optional Decimal: `None` and `0` both
give the default. -/
def qOr (x : Option ℚ) (d : ℚ) : ℚ :=
  match x with
  | none => d
  | some v => if v = 0 then d else v

/-- Python substring test `needle in hay` on strings. -/
def strContainsSub (hay needle : String) : Bool :=
  hay.data.tails.any (fun t => needle.data.isPrefixOf t)

/-- `ESSENTIAL_SCORES` table from `factors.py`. -/
def ESSENTIAL_SCORES : List (String × ℚ) :=
  [("Electric Utilities", 95), ("Water Utilities", 95), ("Gas Utilities", 90),
   ("Healthcare Facilities", 90), ("Pharmaceuticals", 85), ("Food Products", 85),
   ("Food Retail", 80), ("Household Products", 75), ("Waste Management", 75),
   ("Telecom", 70), ("Defense", 70), ("Insurance", 40), ("Banks", 35),
   ("Asset Management", 30), ("Software", 25), ("Consumer Discretionary", 20)]

/-- `COMMODITY_SECTOR_SCORES` table from `factors.py`. -/
def COMMODITY_SECTOR_SCORES : List (String × ℚ) :=
  [("Oil & Gas E&P", 85), ("Oil & Gas Integrated", 80), ("Copper Mining", 85),
   ("Diversified Mining", 75), ("Agricultural Products", 70), ("Steel", 65),
   ("Chemicals", 55)]

/-- `PRECIOUS_METALS_INDUSTRIES` from `factors.py`. -/
def PRECIOUS_METALS_INDUSTRIES : List String :=
  ["Gold Mining", "Silver Mining", "Precious Metals", "Precious Metals Royalties"]

/-- Python dict `.get key` with a default, over an association list. -/
def lookupOr (table : List (String × ℚ)) (key : String) (dflt : ℚ) : ℚ :=
  match table.lookup key with
  | some v => v
  | none => dflt

/-- `FactorScorer.score_hard_assets`. -/
def score_hard_assets (data : CompanyData) : ℚ :=
  match data.total_assets with
  | none => 50
  | some ta =>
    if ta = 0 then 50
    else
      let tangible : Int := data.tangible_assets.getD 0
      let tangible_ratio : ℚ := (tangible : ℚ) / (ta : ℚ)
      let base_score := tangible_ratio * 80
      let real_estate_boost : ℚ :=
        if data.industry = some "REITs" ∨ data.industry = some "Real Estate" then 10 else 0
      let mining_boost : ℚ :=
        match data.industry with
        | some ind => if strContainsSub ind "Mining" then 10 else 0
        | none => 0
      min (base_score + real_estate_boost + mining_boost) 100

/-- `FactorScorer.score_precious_metals`. -/
def score_precious_metals (data : CompanyData) : ℚ :=
  if (match data.industry with
      | some ind => PRECIOUS_METALS_INDUSTRIES.contains ind
      | none => false) then
    match data.proven_reserves_oz with
    | some r =>
      if r = 0 then 80
      else min (80 + min ((r : ℚ) / 10000000) 1 * 20) 100
    | none => 80
  else if data.industry = some "Precious Metals Royalties" then 85
  else min (qOr data.precious_metals_revenue_pct 0 * 2) 100

/-- `FactorScorer.score_commodities`. -/
def score_commodities (data : CompanyData) : ℚ :=
  let sector_base := lookupOr COMMODITY_SECTOR_SCORES (data.industry.getD "") 30
  let commodity_pct := qOr data.commodity_revenue_pct 0
  let revenue_adjustment := (commodity_pct - 50) * (3/10)
  max 0 (min (sector_base + revenue_adjustment) 100)

/-- `FactorScorer.score_foreign_revenue`. -/
def score_foreign_revenue (data : CompanyData) : ℚ :=
  let foreign_pct := qOr data.foreign_revenue_pct 0
  if 70 ≤ foreign_pct then 95
  else if 50 ≤ foreign_pct then 70 + (foreign_pct - 50) * (5/4)
  else foreign_pct * (7/5)

/-- `FactorScorer.score_pricing_power`. -/
def score_pricing_power (data : CompanyData) : ℚ :=
  let margin := qOr data.gross_margin 0
  let stability := qOr data.gross_margin_5yr_std 10
  let margin_score := min (margin * (6/5)) 50
  let stability_score := max (50 - stability * 5) 0
  margin_score + stability_score

/-- `FactorScorer.score_debt_structure`. -/
def score_debt_structure (data : CompanyData) : ℚ :=
  let fixed_pct := qOr data.fixed_rate_debt_pct 50
  let fixed_score := fixed_pct * (1/2)
  let maturity := qOr data.avg_debt_maturity_years 5
  let maturity_score := min (maturity * 5) 30
  let leverage_score :=
    match data.total_assets, data.total_debt with
    | some ta, some td =>
      if ta = 0 ∨ td = 0 then 10
      else max (20 - ((td : ℚ) / (ta : ℚ)) * 40) 0
    | _, _ => 10
  fixed_score + maturity_score + leverage_score

/-- `FactorScorer.score_essential_services`. -/
def score_essential_services (data : CompanyData) : ℚ :=
  lookupOr ESSENTIAL_SCORES (data.industry.getD "") 40

/-- The mapping produced by `FactorScorer.score_all`. -/
structure FactorScores where
  hard_assets : ℚ
  precious_metals : ℚ
  commodities : ℚ
  foreign_revenue : ℚ
  pricing_power : ℚ
  debt_structure : ℚ
  essential_services : ℚ
deriving DecidableEq

/-- `FactorScorer.score_all`. -/
def score_all (data : CompanyData) : FactorScores :=
  { hard_assets := score_hard_assets data
    precious_metals := score_precious_metals data
    commodities := score_commodities data
    foreign_revenue := score_foreign_revenue data
    pricing_power := score_pricing_power data
    debt_structure := score_debt_structure data
    essential_services := score_essential_services data }

/-- `FactorWeights` from `weights.py`. -/
structure FactorWeights where
  hard_assets : ℚ
  precious_metals : ℚ
  commodities : ℚ
  foreign_revenue : ℚ
  pricing_power : ℚ
  debt_structure : ℚ
  essential_services : ℚ
deriving DecidableEq

/-- `DEFAULT_WEIGHTS` (the `current` scenario vector). -/
def DEFAULT_WEIGHTS : FactorWeights :=
  { hard_assets := 25/100, precious_metals := 15/100, commodities := 15/100,
    foreign_revenue := 15/100, pricing_power := 15/100, debt_structure := 10/100,
    essential_services := 5/100 }

/-- `GRADUAL_WEIGHTS`. -/
def GRADUAL_WEIGHTS : FactorWeights :=
  { hard_assets := 25/100, precious_metals := 15/100, commodities := 15/100,
    foreign_revenue := 15/100, pricing_power := 15/100, debt_structure := 10/100,
    essential_services := 5/100 }

/-- `RAPID_WEIGHTS`. -/
def RAPID_WEIGHTS : FactorWeights :=
  { hard_assets := 30/100, precious_metals := 25/100, commodities := 20/100,
    foreign_revenue := 10/100, pricing_power := 10/100, debt_structure := 5/100,
    essential_services := 0 }

/-- `HYPER_WEIGHTS`. -/
def HYPER_WEIGHTS : FactorWeights :=
  { hard_assets := 35/100, precious_metals := 35/100, commodities := 20/100,
    foreign_revenue := 5/100, pricing_power := 5/100, debt_structure := 0,
    essential_services := 0 }

/-- `SCENARIO_WEIGHTS` dict lookup; unknown keys give `none`. -/
def SCENARIO_WEIGHTS (s : String) : Option FactorWeights :=
  if s = "current" then some DEFAULT_WEIGHTS
  else if s = "gradual" then some GRADUAL_WEIGHTS
  else if s = "rapid" then some RAPID_WEIGHTS
  else if s = "hyper" then some HYPER_WEIGHTS
  else none

/-- `TIER_THRESHOLDS` lookup, `get_tier` from `weights.py`: checked in
dict insertion order, falling back to `"critical"`. -/
def get_tier (score : ℚ) : String :=
  if 85 ≤ score ∧ score ≤ 100 then "excellent"
  else if 70 ≤ score ∧ score ≤ 8499/100 then "strong"
  else if 55 ≤ score ∧ score ≤ 6999/100 then "moderate"
  else if 40 ≤ score ∧ score ≤ 5499/100 then "vulnerable"
  else if 0 ≤ score ∧ score ≤ 3999/100 then "critical"
  else "critical"

/-- Round half to even at integer precision (Python `Decimal` context
rounding `ROUND_HALF_EVEN`). -/
def roundHalfEven (x : ℚ) : ℤ :=
  if x - (x.floor : ℚ) < 1/2 then x.floor
  else if 1/2 < x - (x.floor : ℚ) then x.floor + 1
  else if x.floor % 2 = 0 then x.floor else x.floor + 1

/-- Python `round(x, 2)` on a `Decimal`. -/
def round2 (x : ℚ) : ℚ := ((roundHalfEven (x * 100) : ℤ) : ℚ) / 100

/-- `ScoringEngine._calculate_weighted_score` (the engine runs with
`DEFAULT_WEIGHTS`); also the body of
`ScenarioModeler.calculate_scenario_score` for a given weight vector. -/
def calculate_weighted_score (f : FactorScores) (w : FactorWeights) : ℚ :=
  round2 (f.hard_assets * w.hard_assets
    + f.precious_metals * w.precious_metals
    + f.commodities * w.commodities
    + f.foreign_revenue * w.foreign_revenue
    + f.pricing_power * w.pricing_power
    + f.debt_structure * w.debt_structure
    + f.essential_services * w.essential_services)

/-- `ScenarioModeler.get_scenario_weights`: dict get with `current` default. -/
def get_scenario_weights (s : String) : FactorWeights :=
  match SCENARIO_WEIGHTS s with
  | some w => w
  | none => DEFAULT_WEIGHTS

/-- `ScenarioModeler.calculate_scenario_score`. -/
def calculate_scenario_score (f : FactorScores) (s : String) : ℚ :=
  calculate_weighted_score f (get_scenario_weights s)

/-- The dict produced by `ScenarioModeler.calculate_all_scenarios`. -/
structure ScenarioScores where
  current : ℚ
  gradual : ℚ
  rapid : ℚ
  hyper : ℚ
deriving DecidableEq

/-- `ScenarioModeler.calculate_all_scenarios`. -/
def calculate_all_scenarios (f : FactorScores) : ScenarioScores :=
  { current := calculate_scenario_score f "current"
    gradual := calculate_scenario_score f "gradual"
    rapid := calculate_scenario_score f "rapid"
    hyper := calculate_scenario_score f "hyper" }

/-- The ten completeness indicators of `ScoringEngine._calculate_confidence`
(`is not None` checks, not truthiness). -/
def availableCount (d : CompanyData) : ℕ :=
  (if d.total_assets.isSome then 1 else 0)
  + (if d.tangible_assets.isSome then 1 else 0)
  + (if d.total_revenue.isSome then 1 else 0)
  + (if d.foreign_revenue_pct.isSome then 1 else 0)
  + (if d.gross_margin.isSome then 1 else 0)
  + (if d.gross_margin_5yr_std.isSome then 1 else 0)
  + (if d.total_debt.isSome then 1 else 0)
  + (if d.fixed_rate_debt_pct.isSome then 1 else 0)
  + (if d.avg_debt_maturity_years.isSome then 1 else 0)
  + (if d.commodity_revenue_pct.isSome then 1 else 0)

/-- `ScoringEngine._calculate_confidence`. -/
def calculate_confidence (d : CompanyData) : ℚ :=
  round2 (3/10 + ((availableCount d : ℚ) / 10) * (7/10))

/-- `ScoringResult` dataclass from `engine.py`. -/
structure ScoringResult where
  total_score : ℚ
  tier : String
  confidence : ℚ
  factors : FactorScores
  scenario_scores : ScenarioScores
deriving DecidableEq

/-- `ScoringEngine.score`. -/
def score (data : CompanyData) : ScoringResult :=
  let factor_scores := score_all data
  let total_score := calculate_weighted_score factor_scores DEFAULT_WEIGHTS
  let tier := get_tier total_score
  let confidence := calculate_confidence data
  let scenario_scores := calculate_all_scenarios factor_scores
  { total_score := total_score, tier := tier, confidence := confidence,
    factors := factor_scores, scenario_scores := scenario_scores }

/-- FORTRESS-family tier table, written from the spec's words (section 4.B):
FORTRESS for scores in the interval from 80 to 100, RESILIENT from 65,
MODERATE from 50, VULNERABLE from 35, EXPOSED below 35. -/
def fortressTierSpec (s : ℚ) : String :=
  if 80 ≤ s ∧ s ≤ 100 then "FORTRESS"
  else if 65 ≤ s ∧ s < 80 then "RESILIENT"
  else if 50 ≤ s ∧ s < 65 then "MODERATE"
  else if 35 ≤ s ∧ s < 50 then "VULNERABLE"
  else "EXPOSED"

/-- The tier scheme the code actually uses (`TIER_THRESHOLDS` in
`weights.py`) written as half-open ranges: excellent for scores in the
interval from 85 to 100, strong from 70, moderate from 55, vulnerable
from 40, critical below 40; scores outside the covered ranges fall back
to critical. -/
def excellentTierSpec (s : ℚ) : String :=
  if 85 ≤ s ∧ s ≤ 100 then "excellent"
  else if 70 ≤ s ∧ s < 85 then "strong"
  else if 55 ≤ s ∧ s < 70 then "moderate"
  else if 40 ≤ s ∧ s < 55 then "vulnerable"
  else "critical"

/-- A company with no fundamentals at all. -/
def dataEmpty : CompanyData := { ticker := "EMPTY" }

/-- A company whose only known field is a fixed-rate debt percentage of
200 (the column is unconstrained). -/
def dataFixedRate200 : CompanyData := { ticker := "OVR", fixed_rate_debt_pct := some 200 }

/-- A royalty-streaming company with no reserve data. -/
def dataRoyalty : CompanyData := { ticker := "ROY", industry := some "Precious Metals Royalties" }

end Hedge

/-- C1 counterexample: the claim asserts every factor score of
`engine.score(d)` lies in the interval from 0 to 100 for every
`CompanyData`; but for a company whose `fixed_rate_debt_pct` is 200,
`score_debt_structure` returns 100 + 25 + 10 = 135 (the factor is never
clamped), so the claim fails at this concrete input. -/
theorem C1_counterexample :
    (Hedge.score Hedge.dataFixedRate200).factors.debt_structure = 135 ∧
    ¬ (Hedge.score Hedge.dataFixedRate200).factors.debt_structure ≤ 100 := by
  decide

/-- C2 counterexample: the claim asserts the tier of `engine.score(d)` is
the FORTRESS-family classification of the total score; at the concrete
all-null company the code's tier is `"critical"` (from `get_tier` in
`weights.py`), while the FORTRESS table classifies the total 22.75 as
`"EXPOSED"`. -/
theorem C2_counterexample :
    (Hedge.score Hedge.dataEmpty).tier = "critical" ∧
    Hedge.fortressTierSpec (Hedge.score Hedge.dataEmpty).total_score = "EXPOSED" ∧
    (Hedge.score Hedge.dataEmpty).tier ≠
      Hedge.fortressTierSpec (Hedge.score Hedge.dataEmpty).total_score := by
  decide

/-- C4 counterexample: the claim asserts industry `Precious Metals
Royalties` (the royalty-streaming industry) scores 85 flat; but that
industry is a member of `PRECIOUS_METALS_INDUSTRIES`, so the first branch
of `score_precious_metals` fires and a royalty company without reserves
scores 80, not 85. -/
theorem C4_counterexample :
    Hedge.score_precious_metals Hedge.dataRoyalty = 80 ∧ (80 : ℚ) ≠ 85 := by
  decide

namespace Hedge

/-- The precious_metals factor as the amended claim words it, with no
85 branch: for the four industries of `PRECIOUS_METALS_INDUSTRIES`
(Gold Mining, Silver Mining, Precious Metals, Precious Metals
Royalties) a base of 80 plus `min(proven_reserves_oz/10_000_000, 1) *
20` clamped to 100 — 80 flat when reserves are unknown or zero — and
`min(precious_metals_revenue_pct * 2, 100)` for every other industry. -/
def preciousMetalsSpec (d : CompanyData) : ℚ :=
  if (match d.industry with
      | some ind => PRECIOUS_METALS_INDUSTRIES.contains ind
      | none => false) then
    match d.proven_reserves_oz with
    | some r =>
      if r = 0 then 80
      else min (80 + min ((r : ℚ) / 10000000) 1 * 20) 100
    | none => 80
  else min (qOr d.precious_metals_revenue_pct 0 * 2) 100

end Hedge

/-- C4 amended: for every CompanyData, `score_precious_metals` equals
the two-branch table `preciousMetalsSpec`: each of the four industries
of `PRECIOUS_METALS_INDUSTRIES` — Gold Mining, Silver Mining, Precious
Metals and Precious Metals Royalties — scores base 80 plus the reserve
boost clamped to 100 (80 flat when `proven_reserves_oz` is unknown or
zero), and every other industry scores
`min(precious_metals_revenue_pct * 2, 100)`; the dedicated 85-flat
royalty branch is unreachable dead code, since the royalty industry is
already a member of the mining list. -/
theorem C4_amended (d : Hedge.CompanyData) :
    Hedge.score_precious_metals d = Hedge.preciousMetalsSpec d := by
  unfold Hedge.score_precious_metals Hedge.preciousMetalsSpec
  split_ifs with h1 h2
  · rfl
  · rw [h2] at h1
    exact absurd rfl h1
  · rfl

/-- C9: `ScoringEngine.score` is a pure function of its `CompanyData`
argument — it reads no clock, database or randomness — so two
evaluations on the same data give identical results. -/
theorem C9_determinism (d : Hedge.CompanyData) : Hedge.score d = Hedge.score d := rfl

namespace Hedge

theorem ratFloor_le (x : ℚ) : (x.floor : ℚ) ≤ x :=
  (Rat.le_floor).mp le_rfl

theorem lt_ratFloor_add_one (x : ℚ) : x < (x.floor : ℚ) + 1 := by
  by_contra hc
  push_neg at hc
  have h2 : x.floor + 1 ≤ x.floor := Rat.le_floor.mpr (by push_cast; linarith)
  omega

theorem roundHalfEven_bounds (x : ℚ) :
    x - 1/2 ≤ (roundHalfEven x : ℚ) ∧ (roundHalfEven x : ℚ) ≤ x + 1/2 := by
  have h1 := ratFloor_le x
  have h2 := lt_ratFloor_add_one x
  unfold roundHalfEven
  split_ifs with ha hb hc <;> constructor <;> push_cast <;> linarith

theorem round2_mem (lo hi : ℤ) (x : ℚ)
    (hlo : (lo : ℚ)/100 ≤ x) (hhi : x ≤ (hi : ℚ)/100) :
    (lo : ℚ)/100 ≤ round2 x ∧ round2 x ≤ (hi : ℚ)/100 := by
  obtain ⟨hb1, hb2⟩ := roundHalfEven_bounds (x * 100)
  have hlo2 : (lo : ℚ) ≤ x * 100 := (div_le_iff₀ (by norm_num : (0:ℚ) < 100)).mp hlo
  have hhi2 : x * 100 ≤ (hi : ℚ) := (le_div_iff₀ (by norm_num : (0:ℚ) < 100)).mp hhi
  have hl : (lo : ℚ) < (roundHalfEven (x * 100) : ℚ) + 1 := by linarith
  have hr : (roundHalfEven (x * 100) : ℚ) < (hi : ℚ) + 1 := by linarith
  have hli : lo < roundHalfEven (x * 100) + 1 := by exact_mod_cast hl
  have hri : roundHalfEven (x * 100) < hi + 1 := by exact_mod_cast hr
  have hle1 : (lo : ℚ) ≤ (roundHalfEven (x * 100) : ℚ) := by
    have : lo ≤ roundHalfEven (x * 100) := by omega
    exact_mod_cast this
  have hle2 : (roundHalfEven (x * 100) : ℚ) ≤ (hi : ℚ) := by
    have : roundHalfEven (x * 100) ≤ hi := by omega
    exact_mod_cast this
  unfold round2
  constructor
  · exact div_le_div_of_nonneg_right hle1 (by norm_num)
  · exact div_le_div_of_nonneg_right hle2 (by norm_num)
end Hedge

namespace Hedge

theorem div100_le {a b : ℤ} : ((a : ℚ)/100 ≤ (b : ℚ)/100) ↔ a ≤ b := by
  rw [div_le_div_iff_of_pos_right (by norm_num : (0:ℚ) < 100)]
  exact_mod_cast Iff.rfl

theorem div100_lt {a b : ℤ} : ((a : ℚ)/100 < (b : ℚ)/100) ↔ a < b := by
  constructor
  · intro h
    by_contra hc
    exact absurd (div100_le.mpr (by omega)) (not_le.mpr h)
  · intro h
    rcases lt_or_le ((a : ℚ)/100) ((b : ℚ)/100) with h2 | h2
    · exact h2
    · exact absurd (div100_le.mp h2) (by omega)

theorem get_tier_grid (n : ℤ) :
    get_tier ((n : ℚ)/100) = excellentTierSpec ((n : ℚ)/100) := by
  have e85 : ((85 : ℚ) ≤ (n : ℚ)/100) ↔ (8500 : ℤ) ≤ n := by
    rw [show (85 : ℚ) = ((8500 : ℤ) : ℚ)/100 by norm_num]; exact div100_le
  have e100 : ((n : ℚ)/100 ≤ 100) ↔ n ≤ (10000 : ℤ) := by
    rw [show (100 : ℚ) = ((10000 : ℤ) : ℚ)/100 by norm_num]; exact div100_le
  have e70 : ((70 : ℚ) ≤ (n : ℚ)/100) ↔ (7000 : ℤ) ≤ n := by
    rw [show (70 : ℚ) = ((7000 : ℤ) : ℚ)/100 by norm_num]; exact div100_le
  have e8499 : ((n : ℚ)/100 ≤ 8499/100) ↔ n ≤ (8499 : ℤ) := by
    rw [show (8499/100 : ℚ) = ((8499 : ℤ) : ℚ)/100 by norm_num]; exact div100_le
  have e55 : ((55 : ℚ) ≤ (n : ℚ)/100) ↔ (5500 : ℤ) ≤ n := by
    rw [show (55 : ℚ) = ((5500 : ℤ) : ℚ)/100 by norm_num]; exact div100_le
  have e6999 : ((n : ℚ)/100 ≤ 6999/100) ↔ n ≤ (6999 : ℤ) := by
    rw [show (6999/100 : ℚ) = ((6999 : ℤ) : ℚ)/100 by norm_num]; exact div100_le
  have e40 : ((40 : ℚ) ≤ (n : ℚ)/100) ↔ (4000 : ℤ) ≤ n := by
    rw [show (40 : ℚ) = ((4000 : ℤ) : ℚ)/100 by norm_num]; exact div100_le
  have e5499 : ((n : ℚ)/100 ≤ 5499/100) ↔ n ≤ (5499 : ℤ) := by
    rw [show (5499/100 : ℚ) = ((5499 : ℤ) : ℚ)/100 by norm_num]; exact div100_le
  have e0 : ((0 : ℚ) ≤ (n : ℚ)/100) ↔ (0 : ℤ) ≤ n := by
    rw [show (0 : ℚ) = ((0 : ℤ) : ℚ)/100 by norm_num]; exact div100_le
  have e3999 : ((n : ℚ)/100 ≤ 3999/100) ↔ n ≤ (3999 : ℤ) := by
    rw [show (3999/100 : ℚ) = ((3999 : ℤ) : ℚ)/100 by norm_num]; exact div100_le
  have s85 : ((n : ℚ)/100 < 85) ↔ n < (8500 : ℤ) := by
    rw [show (85 : ℚ) = ((8500 : ℤ) : ℚ)/100 by norm_num]; exact div100_lt
  have s70 : ((n : ℚ)/100 < 70) ↔ n < (7000 : ℤ) := by
    rw [show (70 : ℚ) = ((7000 : ℤ) : ℚ)/100 by norm_num]; exact div100_lt
  have s55 : ((n : ℚ)/100 < 55) ↔ n < (5500 : ℤ) := by
    rw [show (55 : ℚ) = ((5500 : ℤ) : ℚ)/100 by norm_num]; exact div100_lt
  unfold get_tier excellentTierSpec
  simp only [e85, e100, e70, e8499, e55, e6999, e40, e5499, e0, e3999, s85, s70, s55]
  split_ifs <;> first | rfl | omega

end Hedge

/-- C2 amended: the tier in `engine.score(d)` is the classification of
`total_score` by the tier scheme the code defines in `weights.py`
(`TIER_THRESHOLDS`): excellent for totals in the interval from 85 to 100,
strong from 70, moderate from 55, vulnerable from 40, critical below 40,
with critical as the fallback for totals outside the covered ranges. -/
theorem C2_amended (d : Hedge.CompanyData) :
    (Hedge.score d).tier = Hedge.excellentTierSpec (Hedge.score d).total_score :=
  Hedge.get_tier_grid _

namespace Hedge

/-- A predicate holding of every value present in an optional field. -/
def optAll {α : Type} (p : α → Prop) (o : Option α) : Prop :=
  match o with
  | none => True
  | some v => p v

/-- Sanity conditions on fundamentals: monetary and reserve integers are
non-negative, tangible assets do not exceed total assets, percentage
fields lie in the interval from 0 to 100, and maturity, margin and
margin-stdev are non-negative. -/
def ValidData (d : CompanyData) : Prop :=
  optAll (fun v => 0 ≤ v) d.total_assets ∧
  optAll (fun v => 0 ≤ v) d.tangible_assets ∧
  (match d.tangible_assets, d.total_assets with
   | some t, some ta => t ≤ ta
   | _, _ => True) ∧
  optAll (fun v => 0 ≤ v) d.total_debt ∧
  optAll (fun v => 0 ≤ v) d.proven_reserves_oz ∧
  optAll (fun v => 0 ≤ v ∧ v ≤ 100) d.foreign_revenue_pct ∧
  optAll (fun v => 0 ≤ v ∧ v ≤ 100) d.commodity_revenue_pct ∧
  optAll (fun v => 0 ≤ v ∧ v ≤ 100) d.precious_metals_revenue_pct ∧
  optAll (fun v => 0 ≤ v ∧ v ≤ 100) d.fixed_rate_debt_pct ∧
  optAll (fun v => 0 ≤ v) d.avg_debt_maturity_years ∧
  optAll (fun v => 0 ≤ v) d.gross_margin ∧
  optAll (fun v => 0 ≤ v) d.gross_margin_5yr_std

/-- A value on the 0 to 100 score scale. -/
def InRange (x : ℚ) : Prop := 0 ≤ x ∧ x ≤ 100

/-- All seven factor scores on the scale. -/
def FactorsInRange (f : FactorScores) : Prop :=
  InRange f.hard_assets ∧ InRange f.precious_metals ∧ InRange f.commodities ∧
  InRange f.foreign_revenue ∧ InRange f.pricing_power ∧ InRange f.debt_structure ∧
  InRange f.essential_services

/-- Non-negative weights summing to one. -/
def WeightsOk (w : FactorWeights) : Prop :=
  0 ≤ w.hard_assets ∧ 0 ≤ w.precious_metals ∧ 0 ≤ w.commodities ∧
  0 ≤ w.foreign_revenue ∧ 0 ≤ w.pricing_power ∧ 0 ≤ w.debt_structure ∧
  0 ≤ w.essential_services ∧
  w.hard_assets + w.precious_metals + w.commodities + w.foreign_revenue +
    w.pricing_power + w.debt_structure + w.essential_services = 1

theorem qOr_bounds {o : Option ℚ} (lo hi dflt : ℚ)
    (h : optAll (fun v => lo ≤ v ∧ v ≤ hi) o) (hlo : lo ≤ dflt) (hhi : dflt ≤ hi) :
    lo ≤ qOr o dflt ∧ qOr o dflt ≤ hi := by
  cases o with
  | none => exact ⟨hlo, hhi⟩
  | some v =>
    show lo ≤ (if v = 0 then dflt else v) ∧ (if v = 0 then dflt else v) ≤ hi
    split_ifs with h0
    · exact ⟨hlo, hhi⟩
    · exact h

theorem qOr_nonneg {o : Option ℚ} {dflt : ℚ}
    (h : optAll (fun v => 0 ≤ v) o) (hd : 0 ≤ dflt) : 0 ≤ qOr o dflt := by
  cases o with
  | none => exact hd
  | some v =>
    show 0 ≤ if v = 0 then dflt else v
    split_ifs with h0
    · exact hd
    · exact h

theorem ite01_le (c : Prop) [Decidable c] : (if c then (1 : ℕ) else 0) ≤ 1 := by
  split_ifs <;> omega

theorem lookupOr_range (table : List (String × ℚ)) (key : String) (dflt : ℚ)
    (ht : ∀ p ∈ table, 0 ≤ p.2 ∧ p.2 ≤ 100) (h0 : 0 ≤ dflt) (h1 : dflt ≤ 100) :
    0 ≤ lookupOr table key dflt ∧ lookupOr table key dflt ≤ 100 := by
  induction table with
  | nil => exact ⟨h0, h1⟩
  | cons p tl ih =>
    obtain ⟨k, v⟩ := p
    by_cases hk : (key == k) = true
    · have he : lookupOr ((k, v) :: tl) key dflt = v := by
        simp [lookupOr, List.lookup, hk]
      rw [he]
      exact ht (k, v) (List.mem_cons_self _ _)
    · have he : lookupOr ((k, v) :: tl) key dflt = lookupOr tl key dflt := by
        simp only [lookupOr, List.lookup, Bool.not_eq_true] at hk ⊢
        rw [hk]
      rw [he]
      exact ih fun q hq => ht q (List.mem_cons_of_mem _ hq)

theorem score_hard_assets_range (d : CompanyData) (h : ValidData d) :
    InRange (score_hard_assets d) := by
  obtain ⟨hta, htan, hrel, -⟩ := h
  unfold score_hard_assets
  cases hA : d.total_assets with
  | none => exact ⟨by norm_num, by norm_num⟩
  | some ta =>
    rw [hA] at hta hrel
    dsimp only
    unfold InRange
    by_cases h0 : ta = 0
    · rw [if_pos h0]
      exact ⟨by norm_num, by norm_num⟩
    · rw [if_neg h0]
      have hta0 : (0 : ℚ) < (ta : ℚ) := by
        have h1 : (0 : ℤ) ≤ ta := hta
        exact_mod_cast lt_of_le_of_ne h1 (Ne.symm h0)
      have ht0 : (0 : ℤ) ≤ d.tangible_assets.getD 0 := by
        cases hT : d.tangible_assets with
        | none => simp
        | some t => rw [hT] at htan; exact htan
      have htle : d.tangible_assets.getD 0 ≤ ta := by
        cases hT : d.tangible_assets with
        | none => simpa using hta
        | some t => rw [hT] at hrel; exact hrel
      have hr0 : (0 : ℚ) ≤ ((d.tangible_assets.getD 0 : ℤ) : ℚ) / (ta : ℚ) :=
        div_nonneg (by exact_mod_cast ht0) (le_of_lt hta0)
      have hr1 : ((d.tangible_assets.getD 0 : ℤ) : ℚ) / (ta : ℚ) ≤ 1 := by
        rw [div_le_one hta0]
        exact_mod_cast htle
      cases hI : d.industry with
      | none =>
        dsimp only
        split_ifs <;> exact ⟨le_min (by linarith) (by norm_num), min_le_right _ _⟩
      | some ind =>
        dsimp only
        split_ifs <;> exact ⟨le_min (by linarith) (by norm_num), min_le_right _ _⟩

theorem score_precious_metals_range (d : CompanyData) (h : ValidData d) :
    InRange (score_precious_metals d) := by
  obtain ⟨-, -, -, -, hres, -, -, hpm, -⟩ := h
  unfold score_precious_metals InRange
  split_ifs with h1 h2
  · cases hR : d.proven_reserves_oz with
    | none => exact ⟨by norm_num, by norm_num⟩
    | some r =>
      rw [hR] at hres
      dsimp only
      split_ifs with hr0
      · exact ⟨by norm_num, by norm_num⟩
      · have hq : (0 : ℚ) ≤ min ((r : ℚ) / 10000000) 1 * 20 := by
          apply mul_nonneg _ (by norm_num)
          exact le_min (div_nonneg (by exact_mod_cast hres) (by norm_num)) (by norm_num)
        exact ⟨le_min (by linarith) (by norm_num), min_le_right _ _⟩
  · exact ⟨by norm_num, by norm_num⟩
  · have hq := qOr_bounds 0 100 0 hpm le_rfl (by norm_num)
    constructor
    · exact le_min (by nlinarith [hq.1]) (by norm_num)
    · exact min_le_right _ _

theorem score_commodities_range (d : CompanyData) : InRange (score_commodities d) := by
  unfold score_commodities
  exact ⟨le_max_left _ _, max_le (by norm_num) (min_le_right _ _)⟩

theorem score_foreign_revenue_range (d : CompanyData) (h : ValidData d) :
    InRange (score_foreign_revenue d) := by
  obtain ⟨-, -, -, -, -, hfp, -⟩ := h
  have hq := qOr_bounds 0 100 0 hfp le_rfl (by norm_num)
  unfold score_foreign_revenue InRange
  dsimp only
  split_ifs with h70 h50
  · exact ⟨by norm_num, by norm_num⟩
  · exact ⟨by nlinarith [hq.1], by nlinarith [hq.2]⟩
  · exact ⟨by nlinarith [hq.1], by nlinarith [hq.2]⟩

theorem score_pricing_power_range (d : CompanyData) (h : ValidData d) :
    InRange (score_pricing_power d) := by
  obtain ⟨-, -, -, -, -, -, -, -, -, -, hgm, hstd⟩ := h
  have hm : 0 ≤ qOr d.gross_margin 0 := qOr_nonneg hgm le_rfl
  have hs : 0 ≤ qOr d.gross_margin_5yr_std 10 := qOr_nonneg hstd (by norm_num)
  unfold score_pricing_power
  constructor
  · have l1 : (0:ℚ) ≤ min (qOr d.gross_margin 0 * (6/5)) 50 :=
      le_min (by nlinarith) (by norm_num)
    have l2 : (0:ℚ) ≤ max (50 - qOr d.gross_margin_5yr_std 10 * 5) 0 := le_max_right _ _
    linarith
  · have u1 : min (qOr d.gross_margin 0 * (6/5)) 50 ≤ 50 := min_le_right _ _
    have u2 : max (50 - qOr d.gross_margin_5yr_std 10 * 5) 0 ≤ 50 :=
      max_le (by nlinarith) (by norm_num)
    linarith

theorem score_debt_structure_range (d : CompanyData) (h : ValidData d) :
    InRange (score_debt_structure d) := by
  obtain ⟨hta, -, -, htd, -, -, -, -, hfr, hmat, -⟩ := h
  have hf := qOr_bounds 0 100 50 hfr (by norm_num) (by norm_num)
  have hm : 0 ≤ qOr d.avg_debt_maturity_years 5 := qOr_nonneg hmat (by norm_num)
  unfold score_debt_structure
  have hfix : 0 ≤ qOr d.fixed_rate_debt_pct 50 * (1/2) ∧
      qOr d.fixed_rate_debt_pct 50 * (1/2) ≤ 50 := ⟨by nlinarith [hf.1], by nlinarith [hf.2]⟩
  have hmat2 : (0:ℚ) ≤ min (qOr d.avg_debt_maturity_years 5 * 5) 30 ∧
      min (qOr d.avg_debt_maturity_years 5 * 5) 30 ≤ 30 :=
    ⟨le_min (by nlinarith) (by norm_num), min_le_right _ _⟩
  have hlev : (0:ℚ) ≤ (match d.total_assets, d.total_debt with
      | some ta, some td =>
        if ta = 0 ∨ td = 0 then (10:ℚ)
        else max (20 - ((td : ℚ) / (ta : ℚ)) * 40) 0
      | _, _ => 10) ∧
      (match d.total_assets, d.total_debt with
      | some ta, some td =>
        if ta = 0 ∨ td = 0 then (10:ℚ)
        else max (20 - ((td : ℚ) / (ta : ℚ)) * 40) 0
      | _, _ => 10) ≤ 20 := by
    cases hA : d.total_assets with
    | none => exact ⟨by norm_num, by norm_num⟩
    | some ta =>
      cases hD : d.total_debt with
      | none => exact ⟨by norm_num, by norm_num⟩
      | some td =>
        rw [hA] at hta
        rw [hD] at htd
        dsimp only
        split_ifs with h0
        · exact ⟨by norm_num, by norm_num⟩
        · have hr : (0:ℚ) ≤ ((td : ℤ) : ℚ) / ((ta : ℤ) : ℚ) :=
            div_nonneg (by exact_mod_cast htd) (by exact_mod_cast hta)
          exact ⟨le_max_right _ _, max_le (by nlinarith) (by norm_num)⟩
  exact ⟨by linarith [hfix.1, hmat2.1, hlev.1], by linarith [hfix.2, hmat2.2, hlev.2]⟩

theorem score_essential_services_range (d : CompanyData) :
    InRange (score_essential_services d) := by
  unfold score_essential_services
  exact lookupOr_range _ _ _ (by decide) (by norm_num) (by norm_num)

end Hedge

namespace Hedge

theorem calculate_weighted_score_range (f : FactorScores) (w : FactorWeights)
    (hf : FactorsInRange f) (hw : WeightsOk w) :
    InRange (calculate_weighted_score f w) := by
  obtain ⟨⟨a0, a1⟩, ⟨b0, b1⟩, ⟨c0, c1⟩, ⟨e0, e1⟩, ⟨p0, p1⟩, ⟨g0, g1⟩, ⟨i0, i1⟩⟩ := hf
  obtain ⟨w1, w2, w3, w4, w5, w6, w7, hsum⟩ := hw
  have u1 := mul_le_mul_of_nonneg_right a1 w1
  have u2 := mul_le_mul_of_nonneg_right b1 w2
  have u3 := mul_le_mul_of_nonneg_right c1 w3
  have u4 := mul_le_mul_of_nonneg_right e1 w4
  have u5 := mul_le_mul_of_nonneg_right p1 w5
  have u6 := mul_le_mul_of_nonneg_right g1 w6
  have u7 := mul_le_mul_of_nonneg_right i1 w7
  have l1 := mul_nonneg a0 w1
  have l2 := mul_nonneg b0 w2
  have l3 := mul_nonneg c0 w3
  have l4 := mul_nonneg e0 w4
  have l5 := mul_nonneg p0 w5
  have l6 := mul_nonneg g0 w6
  have l7 := mul_nonneg i0 w7
  unfold calculate_weighted_score
  obtain ⟨r1, r2⟩ := round2_mem 0 10000
    (f.hard_assets * w.hard_assets + f.precious_metals * w.precious_metals
      + f.commodities * w.commodities + f.foreign_revenue * w.foreign_revenue
      + f.pricing_power * w.pricing_power + f.debt_structure * w.debt_structure
      + f.essential_services * w.essential_services)
    (by push_cast; linarith) (by push_cast; linarith)
  norm_num at r1 r2
  exact ⟨r1, r2⟩

theorem availableCount_le (d : CompanyData) : availableCount d ≤ 10 := by
  have h1 := ite01_le (d.total_assets.isSome = true)
  have h2 := ite01_le (d.tangible_assets.isSome = true)
  have h3 := ite01_le (d.total_revenue.isSome = true)
  have h4 := ite01_le (d.foreign_revenue_pct.isSome = true)
  have h5 := ite01_le (d.gross_margin.isSome = true)
  have h6 := ite01_le (d.gross_margin_5yr_std.isSome = true)
  have h7 := ite01_le (d.total_debt.isSome = true)
  have h8 := ite01_le (d.fixed_rate_debt_pct.isSome = true)
  have h9 := ite01_le (d.avg_debt_maturity_years.isSome = true)
  have h10 := ite01_le (d.commodity_revenue_pct.isSome = true)
  unfold availableCount
  omega

theorem calculate_confidence_range (d : CompanyData) :
    3/10 ≤ calculate_confidence d ∧ calculate_confidence d ≤ 1 := by
  have hn10 : (availableCount d : ℚ) ≤ 10 := by exact_mod_cast availableCount_le d
  have ha : (0 : ℚ) ≤ (availableCount d : ℚ)/10 := by positivity
  have hb : (availableCount d : ℚ)/10 ≤ 1 := by
    rw [div_le_one (by norm_num : (0:ℚ) < 10)]
    exact hn10
  unfold calculate_confidence
  obtain ⟨r1, r2⟩ := round2_mem 30 100
    (3/10 + ((availableCount d : ℚ)/10) * (7/10))
    (by push_cast; nlinarith) (by push_cast; nlinarith)
  norm_num at r1 r2
  exact ⟨r1, r2⟩

/-- All scores of a `ScoringResult` on the 0 to 100 scale, and its
confidence between 0.3 and 1. -/
def ResultInRange (r : ScoringResult) : Prop :=
  FactorsInRange r.factors ∧
  InRange r.scenario_scores.current ∧ InRange r.scenario_scores.gradual ∧
  InRange r.scenario_scores.rapid ∧ InRange r.scenario_scores.hyper ∧
  3/10 ≤ r.confidence ∧ r.confidence ≤ 1

theorem weightsOk_default : WeightsOk DEFAULT_WEIGHTS := by
  unfold WeightsOk DEFAULT_WEIGHTS
  norm_num

theorem weightsOk_gradual : WeightsOk GRADUAL_WEIGHTS := by
  unfold WeightsOk GRADUAL_WEIGHTS
  norm_num

theorem weightsOk_rapid : WeightsOk RAPID_WEIGHTS := by
  unfold WeightsOk RAPID_WEIGHTS
  norm_num

theorem weightsOk_hyper : WeightsOk HYPER_WEIGHTS := by
  unfold WeightsOk HYPER_WEIGHTS
  norm_num

end Hedge

/-- C1 amended: for every CompanyData whose numeric fields are in their
natural ranges (non-negative integer asset, debt and reserve fields;
tangible assets at most total assets; percentage fields between 0 and
100; non-negative maturity, margin and margin standard deviation), every
factor score and every scenario score of `engine.score(d)` lies in the
interval from 0 to 100, and the confidence lies between 0.3 and 1.
Without the range restriction the claim is false (see the
counterexample): `score_debt_structure` has no upper clamp. -/
theorem C1_amended (d : Hedge.CompanyData) (h : Hedge.ValidData d) :
    Hedge.ResultInRange (Hedge.score d) := by
  have hf : Hedge.FactorsInRange (Hedge.score_all d) :=
    ⟨Hedge.score_hard_assets_range d h, Hedge.score_precious_metals_range d h,
     Hedge.score_commodities_range d, Hedge.score_foreign_revenue_range d h,
     Hedge.score_pricing_power_range d h, Hedge.score_debt_structure_range d h,
     Hedge.score_essential_services_range d⟩
  refine ⟨hf, ?_, ?_, ?_, ?_, ?_, ?_⟩
  · exact Hedge.calculate_weighted_score_range _ _ hf Hedge.weightsOk_default
  · exact Hedge.calculate_weighted_score_range _ _ hf Hedge.weightsOk_gradual
  · exact Hedge.calculate_weighted_score_range _ _ hf Hedge.weightsOk_rapid
  · exact Hedge.calculate_weighted_score_range _ _ hf Hedge.weightsOk_hyper
  · exact (Hedge.calculate_confidence_range d).1
  · exact (Hedge.calculate_confidence_range d).2

/-- C1 witness: the amended statement applied to the all-null company,
whose hypotheses hold vacuously. -/
theorem C1_amended_witness :
    Hedge.ValidData Hedge.dataEmpty ∧ Hedge.ResultInRange (Hedge.score Hedge.dataEmpty) :=
  ⟨⟨trivial, trivial, trivial, trivial, trivial, trivial, trivial, trivial, trivial,
    trivial, trivial, trivial⟩,
   C1_amended Hedge.dataEmpty
    ⟨trivial, trivial, trivial, trivial, trivial, trivial, trivial, trivial, trivial,
     trivial, trivial, trivial⟩⟩

namespace Hedge

/-- Division returning `none` on a zero divisor (a Python
`ZeroDivisionError` / `DivisionByZero` on `Decimal`). -/
def checkedDiv (a b : ℚ) : Option ℚ := if b = 0 then none else some (a / b)

/-- `score_hard_assets` with its division site checked. -/
def score_hard_assetsChecked (data : CompanyData) : Option ℚ :=
  match data.total_assets with
  | none => some 50
  | some ta =>
    if ta = 0 then some 50
    else
      match checkedDiv ((data.tangible_assets.getD 0 : ℤ) : ℚ) (ta : ℚ) with
      | none => none
      | some tangible_ratio =>
        some (min (tangible_ratio * 80
          + (if data.industry = some "REITs" ∨ data.industry = some "Real Estate" then (10:ℚ) else 0)
          + (match data.industry with
             | some ind => if strContainsSub ind "Mining" then (10:ℚ) else 0
             | none => 0)) 100)

/-- `score_precious_metals` with the reserve division site checked. -/
def score_precious_metalsChecked (data : CompanyData) : Option ℚ :=
  if (match data.industry with
      | some ind => PRECIOUS_METALS_INDUSTRIES.contains ind
      | none => false) then
    match data.proven_reserves_oz with
    | some r =>
      if r = 0 then some 80
      else
        match checkedDiv (r : ℚ) 10000000 with
        | none => none
        | some q => some (min (80 + min q 1 * 20) 100)
    | none => some 80
  else if data.industry = some "Precious Metals Royalties" then some 85
  else some (min (qOr data.precious_metals_revenue_pct 0 * 2) 100)

/-- `score_debt_structure` with its division site checked. -/
def score_debt_structureChecked (data : CompanyData) : Option ℚ :=
  let fixed_score := qOr data.fixed_rate_debt_pct 50 * (1/2)
  let maturity_score := min (qOr data.avg_debt_maturity_years 5 * 5) 30
  match data.total_assets, data.total_debt with
  | some ta, some td =>
    if ta = 0 ∨ td = 0 then some (fixed_score + maturity_score + 10)
    else
      match checkedDiv ((td : ℤ) : ℚ) ((ta : ℤ) : ℚ) with
      | none => none
      | some debt_ratio =>
        some (fixed_score + maturity_score + max (20 - debt_ratio * 40) 0)
  | _, _ => some (fixed_score + maturity_score + 10)

/-- The engine with every division site checked; `none` models an
uncaught exception escaping `ScoringEngine.score`. -/
def scoreChecked (data : CompanyData) : Option ScoringResult :=
  match score_hard_assetsChecked data, score_precious_metalsChecked data,
        score_debt_structureChecked data with
  | some ha, some pm, some ds =>
    let factor_scores : FactorScores :=
      { hard_assets := ha, precious_metals := pm,
        commodities := score_commodities data,
        foreign_revenue := score_foreign_revenue data,
        pricing_power := score_pricing_power data,
        debt_structure := ds,
        essential_services := score_essential_services data }
    some { total_score := calculate_weighted_score factor_scores DEFAULT_WEIGHTS,
           tier := get_tier (calculate_weighted_score factor_scores DEFAULT_WEIGHTS),
           confidence := calculate_confidence data,
           factors := factor_scores,
           scenario_scores := calculate_all_scenarios factor_scores }
  | _, _, _ => none

theorem score_hard_assetsChecked_eq (d : CompanyData) :
    score_hard_assetsChecked d = some (score_hard_assets d) := by
  unfold score_hard_assetsChecked score_hard_assets
  cases hA : d.total_assets with
  | none => rfl
  | some ta =>
    dsimp only
    by_cases h0 : ta = 0
    · simp only [if_pos h0]
    · simp only [if_neg h0]
      have hne : ((ta : ℤ) : ℚ) ≠ 0 := by exact_mod_cast h0
      rw [checkedDiv, if_neg hne]

theorem score_precious_metalsChecked_eq (d : CompanyData) :
    score_precious_metalsChecked d = some (score_precious_metals d) := by
  unfold score_precious_metalsChecked score_precious_metals
  split_ifs with h1 h2
  · cases hR : d.proven_reserves_oz with
    | none => rfl
    | some r =>
      dsimp only
      by_cases hr0 : r = 0
      · simp only [if_pos hr0]
      · simp only [if_neg hr0]
        rw [checkedDiv, if_neg (by norm_num : (10000000:ℚ) ≠ 0)]
  · rfl
  · rfl

theorem score_debt_structureChecked_eq (d : CompanyData) :
    score_debt_structureChecked d = some (score_debt_structure d) := by
  unfold score_debt_structureChecked score_debt_structure
  cases hA : d.total_assets with
  | none => rfl
  | some ta =>
    cases hD : d.total_debt with
    | none => rfl
    | some td =>
      dsimp only
      by_cases h0 : ta = 0 ∨ td = 0
      · simp only [if_pos h0]
      · simp only [if_neg h0]
        push_neg at h0
        have hne : ((ta : ℤ) : ℚ) ≠ 0 := by exact_mod_cast h0.1
        rw [checkedDiv, if_neg hne]

end Hedge

/-- C10: `engine.score` is total — with every division site made
explicit (`scoreChecked`, where a zero divisor yields `none`), scoring
any `CompanyData` produces `some` of the unchecked result: the guards in
`score_hard_assets` (`total_assets` truthy and nonzero) and
`score_debt_structure` (`total_assets` and `total_debt` both truthy)
make division by zero or by null unreachable, and every other factor
computation is total on nullable inputs. -/
theorem C10_total (d : Hedge.CompanyData) :
    Hedge.scoreChecked d = some (Hedge.score d) := by
  unfold Hedge.scoreChecked
  rw [Hedge.score_hard_assetsChecked_eq, Hedge.score_precious_metalsChecked_eq,
    Hedge.score_debt_structureChecked_eq]
  rfl

namespace Hedge

/-- Relevant columns of the `Company` model. -/
structure Company where
  id : ℕ
  ticker : String
  sector : Option String := none
  industry : Option String := none
  is_active : Bool := true
deriving DecidableEq

/-- The fundamentals columns `_run_daily_scoring_async` copies into
`CompanyData`. -/
structure Fundamental where
  total_assets : Option Int := none
  tangible_assets : Option Int := none
  total_revenue : Option Int := none
  foreign_revenue_pct : Option ℚ := none
  gross_margin : Option ℚ := none
  gross_margin_5yr_std : Option ℚ := none
  total_debt : Option Int := none
  fixed_rate_debt_pct : Option ℚ := none
  avg_debt_maturity_years : Option ℚ := none
  commodity_revenue_pct : Option ℚ := none
  precious_metals_revenue_pct : Option ℚ := none
  proven_reserves_oz : Option Int := none
deriving DecidableEq

/-- The `CompanyData` the batch task builds from a company and its most
recent fundamental (if any). -/
def buildCompanyData (c : Company) (f : Option Fundamental) : CompanyData :=
  match f with
  | none => { ticker := c.ticker, sector := c.sector, industry := c.industry }
  | some fu =>
    { ticker := c.ticker, sector := c.sector, industry := c.industry,
      total_assets := fu.total_assets, tangible_assets := fu.tangible_assets,
      total_revenue := fu.total_revenue, foreign_revenue_pct := fu.foreign_revenue_pct,
      gross_margin := fu.gross_margin, gross_margin_5yr_std := fu.gross_margin_5yr_std,
      total_debt := fu.total_debt, fixed_rate_debt_pct := fu.fixed_rate_debt_pct,
      avg_debt_maturity_years := fu.avg_debt_maturity_years,
      commodity_revenue_pct := fu.commodity_revenue_pct,
      precious_metals_revenue_pct := fu.precious_metals_revenue_pct,
      proven_reserves_oz := fu.proven_reserves_oz }

/-- A `SurvivalScore` row, unique on `(company_id, score_date)`. -/
structure ScoreRow where
  company_id : ℕ
  score_date : ℕ
  result : ScoringResult
deriving DecidableEq

/-- A plain SQL INSERT against the `uq_company_score_date` unique
constraint: it fails (`none`, an IntegrityError) when a row with the
same key already exists. This models `db.add(score)` in the batch task —
the task performs no upsert. -/
def insertScore (tbl : List ScoreRow) (row : ScoreRow) : Option (List ScoreRow) :=
  if tbl.any (fun r => r.company_id == row.company_id && r.score_date == row.score_date)
  then none
  else some (tbl ++ [row])

/-- The `ScoringRun` columns the task writes. -/
structure RunRecord where
  run_date : ℕ
  status : String
  companies_scored : ℕ
  companies_failed : ℕ
  avg_score : Option ℚ
  median_score : Option ℚ
  completed_at : Option String
deriving DecidableEq

/-- Ascending insertion of one element into a sorted list. -/
def insertSorted (x : ℚ) : List ℚ → List ℚ
  | [] => [x]
  | y :: ys => if x ≤ y then x :: y :: ys else y :: insertSorted x ys

/-- Python `sorted` (ascending). -/
def sortAsc (l : List ℚ) : List ℚ := l.foldr insertSorted []

/-- One iteration of the per-company loop of `_run_daily_scoring_async`:
score the company, try to insert the row; on an insert failure the
exception is caught, the company is counted as failed and the loop
continues. -/
def batchStep (today : ℕ) (acc : List ScoreRow × ℕ × ℕ × List ℚ)
    (cf : Company × Option Fundamental) : List ScoreRow × ℕ × ℕ × List ℚ :=
  let result := score (buildCompanyData cf.1 cf.2)
  match insertScore acc.1 { company_id := cf.1.id, score_date := today, result := result } with
  | some t2 => (t2, acc.2.1 + 1, acc.2.2.1, acc.2.2.2 ++ [result.total_score])
  | none => (acc.1, acc.2.1, acc.2.2.1 + 1, acc.2.2.2)

/-- The per-company loop of `_run_daily_scoring_async` over the active
companies: returns the score table, the `scored` and `failed` counters
and the collected totals. -/
def runLoop (today : ℕ) (companies : List (Company × Option Fundamental))
    (tbl : List ScoreRow) : List ScoreRow × ℕ × ℕ × List ℚ :=
  (companies.filter (fun cf => cf.1.is_active)).foldl (batchStep today) (tbl, 0, 0, [])

/-- The totals collected by a run. -/
def runTotals (today : ℕ) (companies : List (Company × Option Fundamental))
    (tbl : List ScoreRow) : List ℚ :=
  (runLoop today companies tbl).2.2.2

/-- `_run_daily_scoring_async`: the updated score table and the final
`ScoringRun` record. The task sets `status`, the counters and the
aggregate stats, but never assigns `completed_at` (nor
`duration_seconds`). The median is `sorted_scores[len // 2]`. -/
def runDailyScoring (today : ℕ) (companies : List (Company × Option Fundamental))
    (tbl : List ScoreRow) : List ScoreRow × RunRecord :=
  let st := runLoop today companies tbl
  let totals := st.2.2.2
  ( st.1,
    { run_date := today, status := "completed",
      companies_scored := st.2.1, companies_failed := st.2.2.1,
      avg_score := if totals = [] then none else some (totals.sum / totals.length),
      median_score :=
        if totals = [] then none
        else some ((sortAsc totals).getD (totals.length / 2) 0),
      completed_at := none } )

/-- Lower-middle median, modelled from the claim's words: the middle
element of the sorted totals, the lower-middle one on even counts. -/
def lowerMedianSpec (l : List ℚ) : ℚ := (sortAsc l).getD ((l.length - 1) / 2) 0

/-- The aggregate-stats contract the run record actually satisfies. -/
def RunStatsOk (today : ℕ) (companies : List (Company × Option Fundamental))
    (tbl : List ScoreRow) : Prop :=
  (runDailyScoring today companies tbl).2.avg_score =
    some ((runTotals today companies tbl).sum / (runTotals today companies tbl).length) ∧
  (runDailyScoring today companies tbl).2.median_score =
    some ((sortAsc (runTotals today companies tbl)).getD
      ((runTotals today companies tbl).length / 2) 0) ∧
  ((runTotals today companies tbl).length % 2 = 1 →
    (sortAsc (runTotals today companies tbl)).getD
      ((runTotals today companies tbl).length / 2) 0 =
    lowerMedianSpec (runTotals today companies tbl))

/-- An active company without fundamentals. -/
def batchCompanyA : Company := { id := 1, ticker := "AAA" }

/-- A second active company, an electric utility. -/
def batchCompanyB : Company := { id := 2, ticker := "BBB", industry := some "Electric Utilities" }

/-- Two active companies for concrete batch runs. -/
def demoCompanies : List (Company × Option Fundamental) :=
  [(batchCompanyA, none), (batchCompanyB, none)]

end Hedge

namespace Hedge

theorem batchStep_counts (today : ℕ) (acc : List ScoreRow × ℕ × ℕ × List ℚ)
    (cf : Company × Option Fundamental) :
    (batchStep today acc cf).2.1 + (batchStep today acc cf).2.2.1 =
      acc.2.1 + acc.2.2.1 + 1 := by
  unfold batchStep
  dsimp only
  split <;> dsimp only <;> omega

theorem foldl_batchStep_counts (today : ℕ) (l : List (Company × Option Fundamental)) :
    ∀ (acc : List ScoreRow × ℕ × ℕ × List ℚ),
      (l.foldl (batchStep today) acc).2.1 + (l.foldl (batchStep today) acc).2.2.1 =
        acc.2.1 + acc.2.2.1 + l.length := by
  induction l with
  | nil => intro acc; simp
  | cons hd tl ih =>
    intro acc
    rw [List.foldl_cons]
    have h1 := ih (batchStep today acc hd)
    have h2 := batchStep_counts today acc hd
    rw [h1, h2, List.length_cons]
    omega

theorem runLoop_counts (today : ℕ) (companies : List (Company × Option Fundamental))
    (tbl : List ScoreRow) :
    (runLoop today companies tbl).2.1 + (runLoop today companies tbl).2.2.1 =
      (companies.filter (fun cf => cf.1.is_active)).length := by
  unfold runLoop
  rw [foldl_batchStep_counts]
  dsimp only
  omega

end Hedge

/-- C3: the claim asserts re-running the daily batch on the same date
overwrites the `SurvivalScore` rows in place via an upsert and the
second run's `companies_failed` equals the first run's. The task
performs a plain INSERT (`db.add`), which violates the
`uq_company_score_date` unique constraint on the second run: with one
active company, the first run fails 0 companies, and the second run on
the resulting table fails 1. -/
theorem C3_insert_bug :
    (Hedge.runDailyScoring 1 [(Hedge.batchCompanyA, none)] []).2.companies_failed = 0 ∧
    (Hedge.runDailyScoring 1 [(Hedge.batchCompanyA, none)]
      (Hedge.runDailyScoring 1 [(Hedge.batchCompanyA, none)] []).1).2.companies_failed = 1 := by
  decide

/-- C7: for every batch run the model records `companies_scored +
companies_failed` equal to the number of active companies enumerated,
and it finishes with `status = "completed"` — but `completed_at` is
never assigned (the task's final update omits it), so the claimed
invariant `status = completed implies completed_at set` fails on every
completed run. -/
theorem C7_completed_without_timestamp (today : ℕ)
    (companies : List (Hedge.Company × Option Hedge.Fundamental))
    (tbl : List Hedge.ScoreRow) :
    (Hedge.runDailyScoring today companies tbl).2.companies_scored +
      (Hedge.runDailyScoring today companies tbl).2.companies_failed =
      (companies.filter (fun cf => cf.1.is_active)).length ∧
    (Hedge.runDailyScoring today companies tbl).2.status = "completed" ∧
    (Hedge.runDailyScoring today companies tbl).2.completed_at = none := by
  refine ⟨?_, rfl, rfl⟩
  exact Hedge.runLoop_counts today companies tbl

/-- C6 counterexample: the claim says the recorded median is the
lower-middle element of the sorted totals on even counts; a run over two
companies with totals 22.75 and 25.5 records median 25.5
(`sorted[len // 2]`, the upper-middle), not the lower-middle 22.75. -/
theorem C6_counterexample :
    Hedge.runTotals 1 Hedge.demoCompanies [] = [91/4, 51/2] ∧
    (Hedge.runDailyScoring 1 Hedge.demoCompanies []).2.median_score = some (51/2) ∧
    Hedge.lowerMedianSpec [91/4, 51/2] = 91/4 ∧
    ¬ ((51/2 : ℚ) = 91/4) := by
  decide

/-- C6 amended: after a batch run with a non-empty totals list,
`avg_score` is the arithmetic mean of the per-company totals and
`median_score` is the element at index `length / 2` of the ascending
sort — the upper-middle element on even counts; on odd counts this
agrees with the claimed lower-middle median. -/
theorem C6_amended (today : ℕ)
    (companies : List (Hedge.Company × Option Hedge.Fundamental))
    (tbl : List Hedge.ScoreRow)
    (h : Hedge.runTotals today companies tbl ≠ []) :
    Hedge.RunStatsOk today companies tbl := by
  have h2 : (Hedge.runLoop today companies tbl).2.2.2 ≠ [] := h
  unfold Hedge.RunStatsOk Hedge.runTotals Hedge.runDailyScoring
  dsimp only
  rw [if_neg h2, if_neg h2]
  refine ⟨rfl, rfl, ?_⟩
  intro hodd
  unfold Hedge.lowerMedianSpec
  have hidx : (Hedge.runLoop today companies tbl).2.2.2.length / 2 =
      ((Hedge.runLoop today companies tbl).2.2.2.length - 1) / 2 := by omega
  rw [hidx]

/-- C6 witness: the amended statement applied to the concrete
two-company run. -/
theorem C6_amended_witness :
    Hedge.runTotals 1 Hedge.demoCompanies [] ≠ [] ∧
    Hedge.RunStatsOk 1 Hedge.demoCompanies [] :=
  ⟨by decide, C6_amended 1 Hedge.demoCompanies [] (by decide)⟩

namespace Hedge

/-- Relevant columns of the `Alert` model. -/
structure Alert where
  alert_type : String
  company_id : Option ℕ := none
  threshold_value : Option ℚ := none
  threshold_direction : Option String := none
  change_percent : Option ℚ := none
  is_active : Bool := true
  last_triggered_at : Option String := none
  trigger_count : Option ℕ := some 0
deriving DecidableEq

/-- `_evaluate_alert` from `tasks/alerts.py`, over the company's total
scores in descending `score_date` order (most recent first). Company ids
are UUIDs, truthy whenever present; `threshold_value` and
`change_percent` are Decimals, falsy when `None` or zero. -/
def evaluateAlert (alert : Alert) (scores : List ℚ) : Bool :=
  if alert.alert_type = "score_drop" then
    match alert.company_id with
    | none => false
    | some _ =>
      match scores with
      | current :: previous :: _ =>
        match alert.change_percent with
        | some cp =>
          if cp ≠ 0 ∧ ((current - previous) / previous) * 100 ≤ -cp then true else false
        | none => false
      | _ => false
  else if alert.alert_type = "threshold" then
    match alert.company_id with
    | none => false
    | some _ =>
      match alert.threshold_value with
      | none => false
      | some tv =>
        if tv = 0 then false
        else
          match scores with
          | current :: _ =>
            if alert.threshold_direction = some "below" ∧ current < tv then true
            else if alert.threshold_direction = some "above" ∧ tv < current then true
            else false
          | [] => false
  else if alert.alert_type = "score_rise" then
    match alert.company_id with
    | none => false
    | some _ =>
      match scores with
      | current :: previous :: _ =>
        match alert.change_percent with
        | some cp =>
          if cp ≠ 0 ∧ cp ≤ ((current - previous) / previous) * 100 then true else false
        | none => false
      | _ => false
  else false

/-- The per-alert body of `_check_alerts_async`: an active alert whose
condition evaluates true gets `last_triggered_at = now` and
`trigger_count = (trigger_count or 0) + 1`; otherwise it is unchanged. -/
def checkAlert (alert : Alert) (scores : List ℚ) (now : String) : Alert :=
  if alert.is_active ∧ evaluateAlert alert scores then
    { alert with last_triggered_at := some now,
                 trigger_count := some (alert.trigger_count.getD 0 + 1) }
  else alert

/-- The contract of the threshold alert type: fires exactly on the
below/above comparison against the most recent total score, and firing
sets the bookkeeping fields. -/
def ThresholdContract (a : Alert) (current : ℚ) (rest : List ℚ)
    (now : String) (tv : ℚ) : Prop :=
  (evaluateAlert a (current :: rest) = true ↔
    ((a.threshold_direction = some "below" ∧ current < tv) ∨
     (a.threshold_direction = some "above" ∧ tv < current))) ∧
  (evaluateAlert a (current :: rest) = true →
    (checkAlert a (current :: rest) now).trigger_count =
      some (a.trigger_count.getD 0 + 1) ∧
    (checkAlert a (current :: rest) now).last_triggered_at = some now) ∧
  (evaluateAlert a (current :: rest) = false →
    checkAlert a (current :: rest) now = a)

/-- A threshold alert whose `threshold_value` is zero (falsy in Python). -/
def alertZeroThreshold : Alert :=
  { alert_type := "threshold", company_id := some 1, threshold_value := some 0,
    threshold_direction := some "above" }

/-- The spec's concrete threshold scenario: threshold 50, direction
below. -/
def alertBelow50 : Alert :=
  { alert_type := "threshold", company_id := some 1, threshold_value := some 50,
    threshold_direction := some "below", trigger_count := some 0 }

end Hedge

/-- C8 counterexample: the claim requires only that `threshold_value` be
present; the code tests Python truthiness (`not alert.threshold_value`),
so an alert with `threshold_value = 0`, direction `above` and a most
recent total of 42 satisfies the claim's firing condition (42 > 0) yet
the code does not fire. -/
theorem C8_counterexample :
    Hedge.evaluateAlert Hedge.alertZeroThreshold [42] = false ∧
    Hedge.alertZeroThreshold.threshold_value = some 0 ∧
    Hedge.alertZeroThreshold.threshold_direction = some "above" ∧
    ((0 : ℚ) < 42) := by
  decide

/-- C8 amended: for every active threshold alert with `company_id`
present and `threshold_value` present and nonzero, and a most recent
total score, the alert fires iff (direction below and total < threshold)
or (direction above and total > threshold); on firing `trigger_count` is
incremented by 1 and `last_triggered_at` is set to the current time, and
a non-firing alert is left unchanged. -/
theorem C8_amended (a : Hedge.Alert) (current : ℚ) (rest : List ℚ)
    (now : String) (tv : ℚ)
    (htype : a.alert_type = "threshold") (hact : a.is_active = true)
    (hcid : a.company_id ≠ none) (htv : a.threshold_value = some tv)
    (htv0 : tv ≠ 0) :
    Hedge.ThresholdContract a current rest now tv := by
  obtain ⟨cid, hc⟩ : ∃ c, a.company_id = some c := by
    cases hx : a.company_id with
    | none => exact absurd hx hcid
    | some c => exact ⟨c, rfl⟩
  have he : Hedge.evaluateAlert a (current :: rest) =
      (if a.threshold_direction = some "below" ∧ current < tv then true
       else if a.threshold_direction = some "above" ∧ tv < current then true
       else false) := by
    unfold Hedge.evaluateAlert
    rw [htype, hc, htv]
    rw [if_neg (by decide : ¬("threshold" = "score_drop"))]
    rw [if_pos (rfl : "threshold" = "threshold")]
    dsimp only
    rw [if_neg htv0]
  refine ⟨?_, ?_, ?_⟩
  · rw [he]
    split_ifs with h1 h2
    · simp [h1]
    · simp [h1, h2]
    · simp [h1, h2]
  · intro hev
    unfold Hedge.checkAlert
    rw [if_pos ⟨hact, hev⟩]
    exact ⟨rfl, rfl⟩
  · intro hev
    unfold Hedge.checkAlert
    rw [if_neg ?hno]
    case hno =>
      intro hcon
      rw [hev] at hcon
      exact absurd hcon.2 (by decide)

/-- C8 witness: the amended statement at the spec's concrete scenario
(most recent score 42, threshold 50, direction below). -/
theorem C8_amended_witness :
    Hedge.ThresholdContract Hedge.alertBelow50 42 [] "2025-01-01T00:00:00" 50 :=
  C8_amended Hedge.alertBelow50 42 [] "2025-01-01T00:00:00" 50 rfl rfl
    (by decide) rfl (by decide)

namespace Hedge

/-- The columns of a `SurvivalScore` row read by the portfolio scenario
endpoint. -/
structure HoldingScoreRow where
  total_score : ℚ
  scenario_gradual : Option ℚ := none
  scenario_rapid : Option ℚ := none
  scenario_hyper : Option ℚ := none
deriving DecidableEq

/-- The scenario parameter table the endpoint defines for itself
(`run_scenario` in `api/v1/portfolio.py`): (inflation_rate, years).
Unknown scenarios are rejected with HTTP 400, modelled as `none`. -/
def scenarioParams (s : String) : Option (ℚ × ℕ) :=
  if s = "gradual" then some (1/20, 5)
  else if s = "rapid" then some (3/20, 3)
  else if s = "hyper" then some (1/2, 2)
  else none

/-- `getattr(score, "scenario_" + s, score.total_score)`: the three
scenario columns exist as attributes (their value may be null), so the
`total_score` default applies only to attribute names that do not
exist. -/
def scenarioAttr (row : HoldingScoreRow) (s : String) : Option ℚ :=
  if s = "gradual" then row.scenario_gradual
  else if s = "rapid" then row.scenario_rapid
  else if s = "hyper" then row.scenario_hyper
  else some row.total_score

/-- `scenario_score = getattr(...) if score else 50` followed by
`scenario_score or 50`: an absent score row, a null column and a zero
score all yield 50. -/
def effectiveScenarioScore (score : Option HoldingScoreRow) (s : String) : ℚ :=
  match score with
  | none => 50
  | some row =>
    match scenarioAttr row s with
    | none => 50
    | some v => if v = 0 then 50 else v

/-- One entry of the endpoint's `holdings_impact` list. -/
structure HoldingImpact where
  current_value : ℚ
  projected_nominal : ℚ
  projected_real : ℚ
deriving DecidableEq

/-- The per-holding computation of `run_scenario`: `value =
holding.current_value or 0`; `protection_factor = scenario_score / 100`;
`nominal_growth = 1 + inflation_rate * protection_factor * years`;
`projected_nominal = value * nominal_growth`; `projected_real =
projected_nominal / (1 + inflation_rate) ** years`; the two projections
are rounded to two decimals. -/
def runScenarioHolding (scenario : String) (current_value : Option ℚ)
    (score : Option HoldingScoreRow) : Option HoldingImpact :=
  match scenarioParams scenario with
  | none => none
  | some (inflation_rate, years) =>
    let value := qOr current_value 0
    let scenario_score := effectiveScenarioScore score scenario
    let protection_factor := scenario_score / 100
    let nominal_growth := 1 + inflation_rate * protection_factor * (years : ℚ)
    let projected_nominal := value * nominal_growth
    let cumulative_inflation := (1 + inflation_rate) ^ years
    let projected_real := projected_nominal / cumulative_inflation
    some { current_value := value,
           projected_nominal := round2 projected_nominal,
           projected_real := round2 projected_real }

/-- Projected nominal value exactly as the claim words it:
`v * (1 + i * (ss/100) * y)`. -/
def claimProjectedNominal (i : ℚ) (y : ℕ) (v ss : ℚ) : ℚ :=
  v * (1 + i * (ss / 100) * (y : ℚ))

/-- Projected real value exactly as the claim words it:
`projected_nominal / (1+i)^y`. -/
def claimProjectedReal (i : ℚ) (y : ℕ) (v ss : ℚ) : ℚ :=
  claimProjectedNominal i y v ss / (1 + i) ^ y

/-- The per-holding projection contract against the claim's formulas. -/
def ScenarioProjectionOk (s : String) (i : ℚ) (y : ℕ) (v : Option ℚ)
    (score : Option HoldingScoreRow) : Prop :=
  runScenarioHolding s v score =
    some { current_value := qOr v 0,
           projected_nominal :=
             round2 (claimProjectedNominal i y (qOr v 0) (effectiveScenarioScore score s)),
           projected_real :=
             round2 (claimProjectedReal i y (qOr v 0) (effectiveScenarioScore score s)) }

/-- A score row whose gradual scenario score is 100. -/
def gradualRow : HoldingScoreRow := { total_score := 90, scenario_gradual := some 100 }

end Hedge

/-- C5 counterexample: the claim uses the section 4.B parameters
(gradual: 6 percent inflation over 48 months, i.e. 4 years), under which
a 100-dollar holding with gradual score 100 projects to a nominal 124;
the endpoint's own table uses (5 percent, 5 years) and computes 125. -/
theorem C5_counterexample :
    (Hedge.runScenarioHolding "gradual" (some 100) (some Hedge.gradualRow)).map
        (fun h => h.projected_nominal) = some 125 ∧
    Hedge.claimProjectedNominal (6/100) 4 100 100 = 124 ∧
    ¬ ((125 : ℚ) = 124) := by
  decide

/-- C5 amended: for each scenario in the endpoint's table — gradual =
(5 percent, 5 years), rapid = (15 percent, 3 years), hyper = (50
percent, 2 years) — the per-holding projection satisfies
projected_nominal = v * (1 + i * (ss/100) * y) and projected_real =
projected_nominal / (1+i)^y (both rounded to two decimals), where v is
the holding's current_value (0 when null) and ss is the holding's
scenario_{s} column if non-null and nonzero, and 50 otherwise — also 50
when the score row is absent; total_score is never used as a
fallback. -/
theorem C5_amended (s : String) (i : ℚ) (y : ℕ)
    (hs : Hedge.scenarioParams s = some (i, y))
    (v : Option ℚ) (score : Option Hedge.HoldingScoreRow) :
    Hedge.ScenarioProjectionOk s i y v score := by
  unfold Hedge.ScenarioProjectionOk Hedge.runScenarioHolding
  rw [hs]
  unfold Hedge.claimProjectedReal Hedge.claimProjectedNominal
  rfl

/-- C5 witness: the amended statement for the gradual scenario on a
100-dollar holding with no score row. -/
theorem C5_amended_witness :
    Hedge.scenarioParams "gradual" = some (1/20, 5) ∧
    Hedge.ScenarioProjectionOk "gradual" (1/20) 5 (some 100) none :=
  ⟨by decide, C5_amended "gradual" (1/20) 5 (by decide) (some 100) none⟩
